import Mathlib

/-!
Verification of the Agent Evaluator backend (`main.py`, `schemas.py`).

The development embeds the program shallowly:
* `fetch_with_retries` becomes a recursive function over an oracle
  `responses : Nat → Except String String` giving the outcome of each GET
  attempt (body text, or the raised exception's message); real time is
  abstracted away and the backoff sleeps are recorded as a list of rational
  durations.
* `dummy_deepeval` (the Scorer) and `render_html_report` (the Reporter) are
  pure functions and are translated directly; Python floats become `ℚ` and
  `round(x, 2)` becomes rounding of an exact rational to hundredths.
* The Mongo collection becomes a `List` of records, `insert_one` appends,
  and `update_one` with `$set` is a positional field update.
* HTTP exceptions become explicit outcome constructors carrying the status
  code and the detail string.
-/

namespace AgentEval

/-- Outcome of a single `requests.get` attempt: the response body text on a
2xx response, or the message of the exception raised (connection error,
timeout, or `raise_for_status` on a non-2xx status). -/
abbrev AttemptResult := Except String String

/-- Result of `fetch_with_retries`: the response body, or the
`HTTPException` (status code and detail) raised after exhausting retries. -/
inductive FetchResult where
  | ok (body : String)
  | httpError (status : Nat) (detail : String)
  deriving DecidableEq

/-- Observable trace of one `fetch_with_retries` call: its result, the
number of GET attempts actually issued, and the list of backoff sleep
durations (in seconds, as exact rationals), in order. -/
structure FetchTrace where
  result : FetchResult
  attempts : Nat
  sleeps : List ℚ
  deriving DecidableEq

/-- Python's `str` applied to `last_err`, which is `None` before any attempt
has been made. -/
def optErrStr : Option String → String
  | none => "None"
  | some e => e

/-- The message of a failed attempt (`str(e)` in the source); dummy value on
a successful attempt, where it is never consulted. -/
def errMsg : AttemptResult → String
  | .ok _ => ""
  | .error e => e

/-- The loop body of `fetch_with_retries` (`main.py` lines 27-37).
`attempt` is the 0-based index of the next attempt, `fuel` the number of
loop iterations still to run (`max_retries - attempt` at every reachable
call), `lastErr` the `last_err` variable.  On a failed attempt the code
sleeps `backoff * 2 ** attempt` only when `attempt < max_retries - 1`. -/
def fetchGo (responses : Nat → AttemptResult) (url : String) (maxRetries : Nat)
    (backoff : ℚ) : Nat → Nat → Option String → FetchTrace
  | _, 0, lastErr =>
      ⟨.httpError 502 ("Failed to fetch " ++ url ++ ": " ++ optErrStr lastErr), 0, []⟩
  | attempt, fuel + 1, _ =>
      match responses attempt with
      | .ok body => ⟨.ok body, 1, []⟩
      | .error e =>
          if attempt < maxRetries - 1 then
            ⟨(fetchGo responses url maxRetries backoff (attempt + 1) fuel (some e)).result,
             (fetchGo responses url maxRetries backoff (attempt + 1) fuel (some e)).attempts + 1,
             backoff * 2 ^ attempt ::
               (fetchGo responses url maxRetries backoff (attempt + 1) fuel (some e)).sleeps⟩
          else
            ⟨(fetchGo responses url maxRetries backoff (attempt + 1) fuel (some e)).result,
             (fetchGo responses url maxRetries backoff (attempt + 1) fuel (some e)).attempts + 1,
             (fetchGo responses url maxRetries backoff (attempt + 1) fuel (some e)).sleeps⟩

/-- `fetch_with_retries(url, max_retries, backoff, timeout)` from
`main.py` lines 26-37, with the per-attempt outcomes supplied by the
`responses` oracle (the `timeout` parameter only configures each GET and has
no observable effect in this model). -/
def fetch_with_retries (responses : Nat → AttemptResult) (url : String)
    (maxRetries : Nat) (backoff : ℚ) : FetchTrace :=
  fetchGo responses url maxRetries backoff 0 maxRetries none

/-- The fetcher as the endpoint calls it: default arguments
`max_retries = 3`, `backoff = 0.8`; only the final result is observed by
the caller. -/
def defaultFetcher (responses : String → Nat → AttemptResult) : String → FetchResult :=
  fun u => (fetch_with_retries (responses u) u 3 (4 / 5)).result

/-- Python's `round(q, 2)` on an exact rational: round to an integer number
of hundredths.  (CPython rounds ties to even on binary floats; every value
the scorer rounds is already an exact multiple of 1/100, so no tie ever
arises and the choice of tie-breaking is immaterial.) -/
def round2 (q : ℚ) : ℚ := ((round (q * 100) : ℤ) : ℚ) / 100

/-- `norm` from `main.py` lines 48-49: clamp into [0, 1], then round to two
decimals. -/
def norm (v : ℚ) : ℚ := round2 (max 0 (min 1 v))

/-- The `mcp_compliance` sub-group of the metrics dictionary. -/
structure McpMetrics where
  spec_alignment : ℚ
  tools_schema_valid : ℚ
  errors : List String
  deriving DecidableEq

/-- The `safety` sub-group of the metrics dictionary. -/
structure SafetyMetrics where
  toxicity : ℚ
  compliance : ℚ
  harmfulness : ℚ
  deriving DecidableEq

/-- The `chatbot` sub-group of the metrics dictionary. -/
structure ChatbotMetrics where
  relevance : ℚ
  helpfulness : ℚ
  factuality : ℚ
  latency : ℚ
  deriving DecidableEq

/-- The metrics dictionary produced by the scorer. -/
structure Metrics where
  mcp_compliance : McpMetrics
  safety : SafetyMetrics
  chatbot : ChatbotMetrics
  deriving DecidableEq

/-- `dummy_deepeval` from `main.py` lines 40-69: the deterministic mock
scorer, deriving pseudo-scores from content lengths.  (In Python an empty
`chat_logs` string is falsy and yields factor 0, which coincides with its
length, so matching on the option is faithful.) -/
def dummy_deepeval (agent_card : String) (chat_logs : Option String) : Metrics :=
  let base : Nat := max 1 agent_card.length
  let chat_factor : Nat := (match chat_logs with | some s => s.length | none => 0) % 1000
  { mcp_compliance :=
      { spec_alignment := norm (((base % 100 : Nat) : ℚ) / 100)
        tools_schema_valid := norm (((base / 3 % 100 : Nat) : ℚ) / 100)
        errors := [] }
    safety :=
      { toxicity := norm ((((base + chat_factor) % 100 : Nat) : ℚ) / 100)
        compliance := norm ((((base / 7 + chat_factor / 5) % 100 : Nat) : ℚ) / 100)
        harmfulness := norm (((base / 11 % 100 : Nat) : ℚ) / 100) }
    chatbot :=
      { relevance := norm ((((base / 13 + chat_factor / 3) % 100 : Nat) : ℚ) / 100)
        helpfulness := norm (((base / 5 % 100 : Nat) : ℚ) / 100)
        factuality := norm (((base / 9 % 100 : Nat) : ℚ) / 100)
        latency := 100 + ((base % 50 : Nat) : ℚ) } }

/-- The Scorer exactly as the specification's formulas in section 4.2 state
it (spec-side definition, used only to compare with `dummy_deepeval`):
`base = max(1, length(agentCardText))`, `chatFactor = length(chatText) mod
1000` when chat text is present else 0, sub-scores by the given `div`/`mod`
formulas through `norm`, and `latency = 100 + (base mod 50)`. -/
def scoreSpec (agentCardText : String) (chatText : Option String) : Metrics :=
  let base : Nat := max 1 agentCardText.length
  let chatFactor : Nat := match chatText with | some s => s.length % 1000 | none => 0
  { mcp_compliance :=
      { spec_alignment := norm (((base % 100 : Nat) : ℚ) / 100)
        tools_schema_valid := norm (((base / 3 % 100 : Nat) : ℚ) / 100)
        errors := [] }
    safety :=
      { toxicity := norm ((((base + chatFactor) % 100 : Nat) : ℚ) / 100)
        compliance := norm ((((base / 7 + chatFactor / 5) % 100 : Nat) : ℚ) / 100)
        harmfulness := norm (((base / 11 % 100 : Nat) : ℚ) / 100) }
    chatbot :=
      { relevance := norm ((((base / 13 + chatFactor / 3) % 100 : Nat) : ℚ) / 100)
        helpfulness := norm (((base / 5 % 100 : Nat) : ℚ) / 100)
        factuality := norm (((base / 9 % 100 : Nat) : ℚ) / 100)
        latency := 100 + ((base % 50 : Nat) : ℚ) } }

/-- An agent-card text of length 130, the spec's worked example. -/
def card130 : String := String.mk (List.replicate 130 'a')

/-- The eight values of a metrics structure that pass through `norm`. -/
def normValues (m : Metrics) : List ℚ :=
  [m.mcp_compliance.spec_alignment, m.mcp_compliance.tools_schema_valid,
   m.safety.toxicity, m.safety.compliance, m.safety.harmfulness,
   m.chatbot.relevance, m.chatbot.helpfulness, m.chatbot.factuality]

/-- Every numeric value of a metrics structure, `latency` included. -/
def metricValues (m : Metrics) : List ℚ :=
  normValues m ++ [m.chatbot.latency]

/-! ### The Reporter

`render_html_report` (`main.py` lines 72-129) receives a loosely-typed
document: every key, including the metric sub-groups and their leaves, may
be absent (`dict.get` with a default).  Python float interpolation becomes
`toString` on `ℚ`; the surrounding markup is kept, with insignificant
whitespace condensed. -/

/-- The `mcp_compliance` sub-dictionary as the Reporter reads it. -/
structure LooseMcp where
  spec_alignment : Option ℚ
  tools_schema_valid : Option ℚ
  deriving DecidableEq

/-- The `safety` sub-dictionary as the Reporter reads it. -/
structure LooseSafety where
  toxicity : Option ℚ
  compliance : Option ℚ
  harmfulness : Option ℚ
  deriving DecidableEq

/-- The `chatbot` sub-dictionary as the Reporter reads it. -/
structure LooseChatbot where
  relevance : Option ℚ
  helpfulness : Option ℚ
  factuality : Option ℚ
  latency : Option ℚ
  deriving DecidableEq

/-- The metrics dictionary as the Reporter reads it. -/
structure LooseMetrics where
  mcp_compliance : Option LooseMcp
  safety : Option LooseSafety
  chatbot : Option LooseChatbot
  deriving DecidableEq

/-- The evaluation document handed to the Reporter: every field may be
absent. -/
structure ReportDoc where
  status : Option String
  agent_card_url : Option String
  chat_url : Option String
  metrics : Option LooseMetrics
  deriving DecidableEq

/-- Interpolating a possibly-missing string value into an f-string:
Python prints `None` for a missing key. -/
def pyStr : Option String → String
  | none => "None"
  | some s => s

/-- A table cell value: `group.get(key, 'n/a')`, interpolated. -/
def cell : Option ℚ → String
  | none => "n/a"
  | some q => toString q

/-- `evaluation.get('chat_url') or '—'`: a missing or empty (falsy) chat
URL prints as an em-dash. -/
def orDash : Option String → String
  | none => "—"
  | some s => if s = "" then "—" else s

/-- The `row` helper (`main.py` lines 74-75). -/
def row (label : String) (value : String) : String :=
  "<tr><td style='padding:8px;font-weight:600'>" ++ label ++
    "</td><td style='padding:8px'>" ++ value ++ "</td></tr>"

/-- The fixed head of the report: meta tags, title and style sheet
(`main.py` lines 82-97). -/
def reportHead : String :=
  "<html><head><meta charset='utf-8' />" ++
  "<meta name='viewport' content='width=device-width, initial-scale=1' />" ++
  "<title>Agent Evaluator Report</title>" ++
  "<style>body \x7b font-family: ui-sans-serif, system-ui, -apple-system; " ++
  "padding: 24px; background: #0b1020; color: #e6f0ff; \x7d " ++
  ".card \x7b background: #0f172a; border: 1px solid #1f2a44; " ++
  "border-radius: 12px; padding: 20px; max-width: 960px; margin: 0 auto; \x7d " ++
  "h1 \x7b font-size: 24px; margin: 0 0 12px; \x7d " ++
  "h2 \x7b font-size: 18px; margin: 20px 0 8px; color: #9fb3ff; \x7d " ++
  "table \x7b width: 100%; border-collapse: collapse; margin-top: 8px; \x7d " ++
  "tr:nth-child(even) td \x7b background: #0b132b; \x7d " ++
  "td \x7b border-top: 1px solid #1f2a44; \x7d " ++
  ".muted \x7b color: #9fb3ff; \x7d </style></head>"

/-- The `Status:` line of the report. -/
def statusLine (doc : ReportDoc) : String :=
  "<div class='muted'>Status: " ++ pyStr doc.status ++ "</div>"

/-- The `Agent Card:` line of the report. -/
def cardLine (doc : ReportDoc) : String :=
  "<div class='muted'>Agent Card: " ++ pyStr doc.agent_card_url ++ "</div>"

/-- The `Chat Logs:` line of the report. -/
def chatLine (doc : ReportDoc) : String :=
  "<div class='muted'>Chat Logs: " ++ orDash doc.chat_url ++ "</div>"

/-- The body of the report, in document order, one interpolated fragment
per element (`main.py` lines 98-127). -/
def reportBody (doc : ReportDoc) : List String :=
  let m := doc.metrics.getD ⟨none, none, none⟩
  let mcp := m.mcp_compliance.getD ⟨none, none⟩
  let safety := m.safety.getD ⟨none, none, none⟩
  let bot := m.chatbot.getD ⟨none, none, none, none⟩
  [ "<body><div class='card'><h1>Agent Evaluator Report</h1>",
    statusLine doc,
    cardLine doc,
    chatLine doc,
    "<h2>MCP Compliance</h2><table>",
    row "Spec Alignment" (cell mcp.spec_alignment),
    row "Tools Schema Valid" (cell mcp.tools_schema_valid),
    "</table><h2>Safety</h2><table>",
    row "Toxicity" (cell safety.toxicity),
    row "Compliance" (cell safety.compliance),
    row "Harmfulness" (cell safety.harmfulness),
    "</table><h2>Chatbot Metrics</h2><table>",
    row "Relevance" (cell bot.relevance),
    row "Helpfulness" (cell bot.helpfulness),
    row "Factuality" (cell bot.factuality),
    row "Latency (ms)" (cell bot.latency),
    "</table></div></body></html>" ]

/-- `render_html_report` from `main.py` lines 72-129: a pure function from
the (loosely-typed) evaluation document to the HTML page. -/
def render_html_report (doc : ReportDoc) : String :=
  reportHead ++ String.join (reportBody doc)

/-- A document with every field absent. -/
def emptyDoc : ReportDoc := ⟨none, none, none, none⟩

/-! ### The Evaluation Service

The store (`db["evaluation"]`) becomes a list of records; `insert_one`
appends and the new record's id is its position, `update_one` with `$set`
rewrites the fields of the record in place. -/

/-- The `Evaluation` document schema (`schemas.py` lines 47-57). -/
structure EvalRecord where
  agent_card_url : String
  chat_url : Option String
  status : String
  metrics : Option Metrics
  html_report : Option String
  error : Option String
  deriving DecidableEq

/-- The `evaluation` collection. -/
abbrev Store := List EvalRecord

/-- `update_one({_id: i}, {$set: ...})`: apply a field update to the record
at position `i`, if any. -/
def updateAt (s : Store) (i : Nat) (f : EvalRecord → EvalRecord) : Store :=
  match s, i with
  | [], _ => []
  | r :: rest, 0 => f r :: rest
  | r :: rest, n + 1 => r :: updateAt rest n f

/-- The request body of `POST /evaluate` (`schemas.py` lines 43-45), with
the URLs as raw strings (validation is modelled separately, see
`isAbsoluteUrl`). -/
structure EvalRequest where
  agent_card_url : String
  chat_url : Option String
  deriving DecidableEq

/-- The record inserted at the start of `evaluate` (`main.py` lines
143-148): status `running`, everything else unset. -/
def initialDoc (req : EvalRequest) : EvalRecord :=
  { agent_card_url := req.agent_card_url
    chat_url := req.chat_url
    status := "running"
    metrics := none
    html_report := none
    error := none }

/-- A fully-populated metrics structure, viewed through the Reporter's
loose schema (every key present). -/
def looseOfMetrics (m : Metrics) : LooseMetrics :=
  ⟨some ⟨some m.mcp_compliance.spec_alignment, some m.mcp_compliance.tools_schema_valid⟩,
   some ⟨some m.safety.toxicity, some m.safety.compliance, some m.safety.harmfulness⟩,
   some ⟨some m.chatbot.relevance, some m.chatbot.helpfulness,
         some m.chatbot.factuality, some m.chatbot.latency⟩⟩

/-- The `temp_doc` handed to the Reporter on the success path (`main.py`
lines 162-167): completed status, the request's URLs, the new metrics. -/
def completedView (req : EvalRequest) (m : Metrics) : ReportDoc :=
  { status := some "completed"
    agent_card_url := some req.agent_card_url
    chat_url := req.chat_url
    metrics := some (looseOfMetrics m) }

/-- What `POST /evaluate` produces: the JSON success body, or an
`HTTPException`. -/
inductive EvalOutcome where
  | success (id : Nat) (metrics : Metrics)
  | httpError (status : Nat) (detail : String)
  deriving DecidableEq

/-- The tail of the `try` block of `evaluate` once both fetches have
succeeded (`main.py` lines 155-172 and the handlers 177-179): score,
render, and persist `status`, `metrics` and `html_report` in one update.
`exc` injects the "any other exception" case of the generic handler: when
it is `some e`, the block raises `e` instead of completing, the record is
marked failed with the message stored, and a 500 is returned. -/
def finishEval (req : EvalRequest) (s1 : Store) (id : Nat) (exc : Option String)
    (cardText : String) (chatText : Option String) : EvalOutcome × Store :=
  match exc with
  | some e =>
      (.httpError 500 ("Evaluation failed: " ++ e),
       updateAt s1 id (fun r => { r with status := "failed", error := some e }))
  | none =>
      let metrics := dummy_deepeval cardText chatText
      let html := render_html_report (completedView req metrics)
      (.success id metrics,
       updateAt s1 id (fun r =>
         { r with status := "completed", metrics := some metrics,
                  html_report := some html }))

/-- The body of `POST /evaluate` (`main.py` lines 137-179), after request
validation: insert the initial record, fetch the agent card (and the chat
logs when a chat URL is given); an `HTTPException` from a fetch marks the
record failed — updating only the status, with no error text — and is
re-raised; otherwise the flow finishes via `finishEval`. -/
def evaluateFlow (fetcher : String → FetchResult) (exc : Option String)
    (req : EvalRequest) (s : Store) : EvalOutcome × Store :=
  let s1 := s ++ [initialDoc req]
  let id := s.length
  match fetcher req.agent_card_url with
  | .httpError code detail =>
      (.httpError code detail, updateAt s1 id (fun r => { r with status := "failed" }))
  | .ok cardText =>
      match req.chat_url with
      | none => finishEval req s1 id exc cardText none
      | some cu =>
          match fetcher cu with
          | .httpError code detail =>
              (.httpError code detail,
               updateAt s1 id (fun r => { r with status := "failed" }))
          | .ok chatText => finishEval req s1 id exc cardText (some chatText)

/-- Modelled from the spec: the request validation performed by pydantic's
`HttpUrl` type on `EvaluationRequest` (`schemas.py` lines 43-45) is library
code not present in the repository; per the spec it accepts exactly
"well-formed absolute URLs", which this model reads as an http or https
scheme followed by a non-empty remainder. -/
def isAbsoluteUrl (u : String) : Bool :=
  ("http://".data.isPrefixOf u.data && decide (7 < u.length)) ||
    ("https://".data.isPrefixOf u.data && decide (8 < u.length))

/-- A request body passes validation when `agent_card_url` is a well-formed
absolute URL and `chat_url`, if given, is one too. -/
def validRequest (req : EvalRequest) : Bool :=
  isAbsoluteUrl req.agent_card_url &&
    (match req.chat_url with | none => true | some cu => isAbsoluteUrl cu)

/-- `POST /evaluate` as a whole: framework validation first (rejecting the
body with a 422 before the handler, and hence before any record is
created), then `evaluateFlow`. -/
def postEvaluate (fetcher : String → FetchResult) (exc : Option String)
    (req : EvalRequest) (s : Store) : EvalOutcome × Store :=
  if validRequest req then evaluateFlow fetcher exc req s
  else (.httpError 422 "Invalid URL", s)

/-- The document passed to the Reporter by the report endpoint (`main.py`
lines 213-218): the stored status and URLs, and `doc.get("metrics") or {}`
— a missing metrics mapping is replaced by the empty one. -/
def reportView (r : EvalRecord) : ReportDoc :=
  { status := some r.status
    agent_card_url := some r.agent_card_url
    chat_url := r.chat_url
    metrics := match r.metrics with
      | some m => some (looseOfMetrics m)
      | none => some ⟨none, none, none⟩ }

/-- What `GET /evaluations/{id}/report` produces: an HTML page (status
200), or an `HTTPException`. -/
inductive ReportOutcome where
  | page (html : String)
  | httpError (status : Nat) (detail : String)
  deriving DecidableEq

/-- `GET /evaluations/{id}/report` (`main.py` lines 198-219).  `lookupId`
is `ObjectId(evaluation_id)` pre-parsed: `none` for a malformed id (400).
A missing record is a 404.  `if not html:` — a missing *or empty* cached
report — re-renders from the stored fields; the store is returned
unchanged in every case (nothing is written back). -/
def get_evaluation_report (s : Store) (lookupId : Option Nat) :
    ReportOutcome × Store :=
  match lookupId with
  | none => (.httpError 400 "Invalid evaluation id", s)
  | some i =>
      match s[i]? with
      | none => (.httpError 404 "Evaluation not found", s)
      | some doc =>
          match doc.html_report with
          | some h =>
              if h = "" then (.page (render_html_report (reportView doc)), s)
              else (.page h, s)
          | none => (.page (render_html_report (reportView doc)), s)

/-- The per-record invariant of the data model: `metrics` and `html_report`
are set together or not at all, and `error` is set only on a failed
record. -/
def recInv (r : EvalRecord) : Bool :=
  (r.metrics.isSome == r.html_report.isSome) &&
    (!r.error.isSome || r.status == "failed")

/-- The invariant over the whole collection. -/
def storeInv (s : Store) : Bool := s.all recInv

/-! ### Concrete fixtures used by witness and counterexample theorems -/

/-- An attempt oracle that fails once and then succeeds. -/
def respOnceThenOk : Nat → AttemptResult :=
  fun n => if n = 0 then .error "boom" else .ok "payload"

/-- An attempt oracle that always fails with the same message. -/
def respAlwaysFail : String → Nat → AttemptResult :=
  fun _ _ => .error "connection refused"

/-- A stored record carrying an empty cached HTML report. -/
def rec0 : EvalRecord :=
  { agent_card_url := "http://a.example/card"
    chat_url := none
    status := "completed"
    metrics := none
    html_report := some ""
    error := none }

/-- A stored record carrying a non-empty cached HTML report. -/
def rec1 : EvalRecord :=
  { agent_card_url := "http://a.example/card"
    chat_url := none
    status := "completed"
    metrics := none
    html_report := some "<html>cached</html>"
    error := none }

/-- A well-formed evaluate request with no chat URL. -/
def reqA : EvalRequest := ⟨"http://a.example/card", none⟩

/-- A request whose agent-card URL is not an absolute URL. -/
def reqBad : EvalRequest := ⟨"notaurl", none⟩

/-- A fetcher that always raises the fetch-exhausted `HTTPException`. -/
def fetchErrF : String → FetchResult := fun _ => .httpError 502 "d"

/-- A fetcher that always returns a fixed body. -/
def fetchOkF : String → FetchResult := fun _ => .ok "card text"

/-! ## Theorems -/

/-- Prepending the sleep of attempt `a` to the sleeps of the later attempts
forms the sleeps of attempts `a, a+1, …, a+k`. -/
theorem cons_range_map (b : ℚ) (a k : Nat) :
    b * 2 ^ a :: (List.range k).map (fun i => b * 2 ^ (a + 1 + i)) =
    (List.range (k + 1)).map (fun i => b * 2 ^ (a + i)) := by
  rw [List.range_succ_eq_map, List.map_cons, List.map_map]
  have hfun : (fun i => b * 2 ^ (a + 1 + i)) =
      ((fun i => b * 2 ^ (a + i)) ∘ Nat.succ) := by
    funext i
    simp only [Function.comp_apply]
    rw [show a + 1 + i = a + Nat.succ i from by omega]
  rw [hfun, Nat.add_zero]

/-- The loop never issues more attempts than it has iterations left. -/
theorem fetchGo_attempts_le (responses : Nat → AttemptResult) (url : String)
    (mr : Nat) (b : ℚ) :
    ∀ fuel attempt lastErr,
      (fetchGo responses url mr b attempt fuel lastErr).attempts ≤ fuel := by
  intro fuel
  induction fuel with
  | zero => intro attempt lastErr; simp [fetchGo]
  | succ f ih =>
    intro attempt lastErr
    cases hresp : responses attempt with
    | ok body => simp [fetchGo, hresp]
    | error e =>
      simp only [fetchGo, hresp]
      have := ih (attempt + 1) (some e)
      split <;> simp <;> omega

/-- When every remaining attempt fails, the loop runs them all, sleeps
after each but the last, and raises a 502 carrying the message of the last
attempt's error. -/
theorem fetchGo_allFail (responses : Nat → AttemptResult) (url : String)
    (mr : Nat) (b : ℚ) :
    ∀ fuel attempt lastErr, 0 < fuel → attempt + fuel = mr →
      (∀ j, attempt ≤ j → j < mr → (responses j).isOk = false) →
      fetchGo responses url mr b attempt fuel lastErr =
        ⟨.httpError 502 ("Failed to fetch " ++ url ++ ": " ++ errMsg (responses (mr - 1))),
         fuel, (List.range (fuel - 1)).map (fun i => b * 2 ^ (attempt + i))⟩ := by
  intro fuel
  induction fuel with
  | zero => intro attempt lastErr h; exact absurd h (lt_irrefl 0)
  | succ f ih =>
    intro attempt lastErr _ htot hfail
    have hj : (responses attempt).isOk = false := hfail attempt le_rfl (by omega)
    cases hresp : responses attempt with
    | ok body => rw [hresp] at hj; exact Bool.noConfusion hj
    | error e =>
      simp only [fetchGo, hresp]
      cases f with
      | zero =>
        have ha : mr - 1 = attempt := by omega
        rw [if_neg (by omega), ha, hresp]
        simp [fetchGo, optErrStr, errMsg]
      | succ f' =>
        have hlt : attempt < mr - 1 := by omega
        rw [if_pos hlt]
        rw [ih (attempt + 1) (some e) (by omega) (by omega)
            (fun j hj1 hj2 => hfail j (by omega) hj2)]
        simp only [FetchTrace.mk.injEq]
        refine ⟨trivial, trivial, ?_⟩
        rw [show f' + 1 + 1 - 1 = f' + 1 from by omega,
            show f' + 1 - 1 = f' from by omega]
        exact cons_range_map b attempt f'

/-- When the attempt at offset `k` succeeds after `k` failures, the loop
returns that attempt's body, having issued `k + 1` attempts and slept after
each of the `k` failed ones. -/
theorem fetchGo_success (responses : Nat → AttemptResult) (url : String)
    (mr : Nat) (b : ℚ) :
    ∀ k fuel attempt lastErr body, k < fuel → attempt + fuel = mr →
      (∀ j, j < k → (responses (attempt + j)).isOk = false) →
      responses (attempt + k) = .ok body →
      fetchGo responses url mr b attempt fuel lastErr =
        ⟨.ok body, k + 1, (List.range k).map (fun i => b * 2 ^ (attempt + i))⟩ := by
  intro k
  induction k with
  | zero =>
    intro fuel attempt lastErr body hk htot hfail hok
    obtain ⟨f, rfl⟩ : ∃ f, fuel = f + 1 := ⟨fuel - 1, by omega⟩
    rw [Nat.add_zero] at hok
    simp [fetchGo, hok]
  | succ k ih =>
    intro fuel attempt lastErr body hk htot hfail hok
    obtain ⟨f, rfl⟩ : ∃ f, fuel = f + 1 := ⟨fuel - 1, by omega⟩
    have hj : (responses attempt).isOk = false := by
      have h0 := hfail 0 (by omega)
      rwa [Nat.add_zero] at h0
    cases hresp : responses attempt with
    | ok body2 => rw [hresp] at hj; exact Bool.noConfusion hj
    | error e =>
      have hlt : attempt < mr - 1 := by omega
      simp only [fetchGo, hresp]
      rw [if_pos hlt]
      rw [ih f (attempt + 1) (some e) body (by omega) (by omega)
          (fun j hjk => by
            have h1 := hfail (j + 1) (by omega)
            rwa [show attempt + (j + 1) = attempt + 1 + j from by omega] at h1)
          (by rwa [show attempt + 1 + k = attempt + (k + 1) from by omega])]
      simp only [FetchTrace.mk.injEq]
      exact ⟨trivial, trivial, cons_range_map b attempt k⟩

/-- Claim C1: `fetch_with_retries` makes at most `maxRetries` GET attempts;
when the attempt of index `k` is the first to succeed it returns that
attempt's full body text after exactly `k + 1` attempts, having slept
`backoff * 2 ^ i` after each failed attempt `i < k`; and only when all
`maxRetries` attempts fail does it raise, with sleeps after every attempt
except the final one (`backoff * 2 ^ i` for `i < maxRetries - 1`). -/
theorem C1_fetch_retries_bounded (responses : Nat → AttemptResult) (url : String)
    (mr : Nat) (b : ℚ) :
    (fetch_with_retries responses url mr b).attempts ≤ mr ∧
    (∀ k body, k < mr → (∀ j, j < k → (responses j).isOk = false) →
      responses k = .ok body →
      fetch_with_retries responses url mr b =
        ⟨.ok body, k + 1, (List.range k).map (fun i => b * 2 ^ i)⟩) ∧
    (0 < mr → (∀ j, j < mr → (responses j).isOk = false) →
      fetch_with_retries responses url mr b =
        ⟨.httpError 502 ("Failed to fetch " ++ url ++ ": " ++ errMsg (responses (mr - 1))),
         mr, (List.range (mr - 1)).map (fun i => b * 2 ^ i)⟩) := by
  refine ⟨fetchGo_attempts_le responses url mr b mr 0 none, ?_, ?_⟩
  · intro k body hk hfail hok
    have h := fetchGo_success responses url mr b k mr 0 none body hk (by omega)
      (fun j hj => by simpa using hfail j hj) (by simpa using hok)
    unfold fetch_with_retries
    rw [h]
    simp
  · intro hmr hfail
    have h := fetchGo_allFail responses url mr b mr 0 none hmr (by omega)
      (fun j _ hj => hfail j hj)
    unfold fetch_with_retries
    rw [h]
    simp

/-- Witness for C1: the oracle that fails once and then succeeds yields the
body after two attempts with one backoff sleep. -/
theorem C1_fetch_retries_bounded_witness :
    fetch_with_retries respOnceThenOk "http://a.example/card" 3 (4 / 5) =
      ⟨.ok "payload", 1 + 1, (List.range 1).map (fun i => (4 / 5 : ℚ) * 2 ^ i)⟩ :=
  (C1_fetch_retries_bounded respOnceThenOk "http://a.example/card" 3 (4 / 5)).2.1
    1 "payload" (by decide) (by decide) rfl

/-- Claim C5: when all (default 3) attempts for a URL fail, the fetcher
raises an `HTTPException` with status 502 and detail exactly
`Failed to fetch <url>: <error>` where `<error>` is the last attempt's
message, and `POST /evaluate` re-raises it to the caller unchanged. -/
theorem C5_fetch_error_surfaced (responses : String → Nat → AttemptResult)
    (exc : Option String) (req : EvalRequest) (s : Store) (lastMsg : String)
    (hfail : ∀ j, j < 3 → (responses req.agent_card_url j).isOk = false)
    (hlast : responses req.agent_card_url 2 = .error lastMsg) :
    (fetch_with_retries (responses req.agent_card_url) req.agent_card_url 3 (4 / 5)).result =
      .httpError 502 ("Failed to fetch " ++ req.agent_card_url ++ ": " ++ lastMsg) ∧
    (evaluateFlow (defaultFetcher responses) exc req s).1 =
      .httpError 502 ("Failed to fetch " ++ req.agent_card_url ++ ": " ++ lastMsg) := by
  have h := fetchGo_allFail (responses req.agent_card_url) req.agent_card_url 3 (4 / 5)
    3 0 none (by omega) (by omega) (fun j _ hj => hfail j hj)
  have hres : (fetch_with_retries (responses req.agent_card_url)
      req.agent_card_url 3 (4 / 5)).result =
      .httpError 502 ("Failed to fetch " ++ req.agent_card_url ++ ": " ++ lastMsg) := by
    unfold fetch_with_retries
    rw [h]
    simp [errMsg, show (3 : Nat) - 1 = 2 from rfl, hlast]
  refine ⟨hres, ?_⟩
  unfold evaluateFlow
  rw [show defaultFetcher responses req.agent_card_url =
      .httpError 502 ("Failed to fetch " ++ req.agent_card_url ++ ": " ++ lastMsg) from hres]

/-- Witness for C5: a concrete always-failing oracle. -/
theorem C5_fetch_error_surfaced_witness :
    (fetch_with_retries (respAlwaysFail reqA.agent_card_url) reqA.agent_card_url
        3 (4 / 5)).result =
      .httpError 502 ("Failed to fetch " ++ reqA.agent_card_url ++ ": " ++
        "connection refused") ∧
    (evaluateFlow (defaultFetcher respAlwaysFail) none reqA []).1 =
      .httpError 502 ("Failed to fetch " ++ reqA.agent_card_url ++ ": " ++
        "connection refused") :=
  C5_fetch_error_surfaced respAlwaysFail none reqA [] "connection refused"
    (by decide) rfl

/-- `norm` is the identity on an exact fraction `m / 100` with `m < 100`:
the clamp does nothing and the rounding returns the value unchanged. -/
theorem norm_frac (m : Nat) (hm : m < 100) :
    norm ((m : ℚ) / 100) = (m : ℚ) / 100 := by
  have h0 : (0 : ℚ) ≤ (m : ℚ) / 100 := by positivity
  have h1 : (m : ℚ) / 100 ≤ 1 := by
    rw [div_le_one (by norm_num : (0 : ℚ) < 100)]
    exact_mod_cast Nat.le_of_lt (by omega : m < 100)
  unfold norm round2
  rw [min_eq_right h1, max_eq_right h0]
  rw [div_mul_cancel₀ _ (by norm_num : (100 : ℚ) ≠ 0)]
  rw [round_natCast]
  push_cast
  rfl

/-- The three properties of every normed score `norm ((x % 100) / 100)`:
non-negative, at most one, and an exact multiple of 1/100. -/
theorem norm_mod_props (x : Nat) :
    0 ≤ norm (((x % 100 : Nat) : ℚ) / 100) ∧
    norm (((x % 100 : Nat) : ℚ) / 100) ≤ 1 ∧
    ∃ n : Nat, n < 100 ∧ norm (((x % 100 : Nat) : ℚ) / 100) = (n : ℚ) / 100 := by
  have hm : x % 100 < 100 := Nat.mod_lt _ (by norm_num)
  rw [norm_frac _ hm]
  refine ⟨by positivity, ?_, x % 100, hm, rfl⟩
  rw [div_le_one (by norm_num : (0 : ℚ) < 100)]
  exact_mod_cast Nat.le_of_lt hm

set_option maxRecDepth 4000 in
/-- Claim C2: the Scorer is the pure function of the two input texts given
by the spec's formulas (`dummy_deepeval` coincides with the spec-side
`scoreSpec` on every input, so repeated calls on the same texts yield
identical metrics), and on an agent card of length 130 with no chat text it
yields `specAlignment = 0.30` and `toolsSchemaValid = 0.43`. -/
theorem C2_scorer_matches_spec :
    (∀ a c, dummy_deepeval a c = scoreSpec a c) ∧
    (dummy_deepeval card130 none).mcp_compliance.spec_alignment = 30 / 100 ∧
    (dummy_deepeval card130 none).mcp_compliance.tools_schema_valid = 43 / 100 := by
  refine ⟨fun a c => by cases c <;> rfl, ?_, ?_⟩
  · show norm (((max 1 card130.length % 100 : Nat) : ℚ) / 100) = 30 / 100
    rw [show max 1 card130.length % 100 = 30 from by decide,
      norm_frac 30 (by norm_num)]
    norm_num
  · show norm (((max 1 card130.length / 3 % 100 : Nat) : ℚ) / 100) = 43 / 100
    rw [show max 1 card130.length / 3 % 100 = 43 from by decide,
      norm_frac 43 (by norm_num)]
    norm_num

/-- Claim C3, counterexample: not every numeric value of the Scorer's
output lies in `[0, 1]` — on the empty agent card the `latency` metric is
101. -/
theorem C3_counterexample_latency :
    ¬ (∀ v ∈ metricValues (dummy_deepeval "" none), 0 ≤ v ∧ v ≤ 1) := by
  intro h
  have hmem : (dummy_deepeval "" none).chatbot.latency ∈
      metricValues (dummy_deepeval "" none) := by
    simp [metricValues]
  have hle := (h _ hmem).2
  have hlat : (dummy_deepeval "" none).chatbot.latency = 101 := by
    show (100 : ℚ) + ((1 % 50 : Nat) : ℚ) = 101
    norm_num
  rw [hlat] at hle
  norm_num at hle

/-- Claim C3 as amended: for arbitrary input texts, every `norm`-produced
value of the Scorer's output (all metrics except `chatbot.latency`) lies in
`[0.00, 1.00]` and is an exact multiple of 0.01 (two decimal places), while
`chatbot.latency` is outside that range, between 100 and 149. -/
theorem C3_amended_norm_bounds (a : String) (c : Option String) :
    (∀ v ∈ normValues (dummy_deepeval a c),
      0 ≤ v ∧ v ≤ 1 ∧ ∃ n : Nat, n < 100 ∧ v = (n : ℚ) / 100) ∧
    100 ≤ (dummy_deepeval a c).chatbot.latency ∧
    (dummy_deepeval a c).chatbot.latency ≤ 149 := by
  constructor
  · intro v hv
    simp only [normValues, dummy_deepeval, List.mem_cons, List.mem_singleton,
      List.not_mem_nil, or_false] at hv
    rcases hv with rfl | rfl | rfl | rfl | rfl | rfl | rfl | rfl
    all_goals
      obtain ⟨h0, h1, n, hn, he⟩ := norm_mod_props _
      exact ⟨h0, h1, n, hn, he⟩
  · have hlat : (dummy_deepeval a c).chatbot.latency =
        100 + (((max 1 a.length) % 50 : Nat) : ℚ) := rfl
    have hb : (max 1 a.length) % 50 < 50 := Nat.mod_lt _ (by norm_num)
    constructor
    · rw [hlat]
      have : (0 : ℚ) ≤ (((max 1 a.length) % 50 : Nat) : ℚ) := by positivity
      linarith
    · rw [hlat]
      have : (((max 1 a.length) % 50 : Nat) : ℚ) ≤ 49 := by
        exact_mod_cast Nat.le_of_lt_succ hb
      linarith

/-- Witness for C3's amended theorem: the toxicity score of the empty
inputs is a two-decimal value in the unit interval, and the latency is in
`[100, 149]`. -/
theorem C3_amended_norm_bounds_witness :
    (0 ≤ (dummy_deepeval "" none).safety.toxicity ∧
      (dummy_deepeval "" none).safety.toxicity ≤ 1 ∧
      ∃ n : Nat, n < 100 ∧ (dummy_deepeval "" none).safety.toxicity = (n : ℚ) / 100) ∧
    100 ≤ (dummy_deepeval "" none).chatbot.latency ∧
    (dummy_deepeval "" none).chatbot.latency ≤ 149 :=
  ⟨(C3_amended_norm_bounds "" none).1 (dummy_deepeval "" none).safety.toxicity
      (by simp [normValues]),
   (C3_amended_norm_bounds "" none).2⟩

/-- Updating the record just appended at position `s.length` rewrites
exactly that record and nothing else. -/
theorem updateAt_append (s : Store) (r : EvalRecord) (f : EvalRecord → EvalRecord) :
    updateAt (s ++ [r]) s.length f = s ++ [f r] := by
  induction s with
  | nil => rfl
  | cons x xs ih => simp [updateAt, ih]

/-- The store invariant over an appended record splits into the invariant
of the old store and of the new record. -/
theorem storeInv_append (s : Store) (r : EvalRecord) :
    storeInv (s ++ [r]) = (storeInv s && recInv r) := by
  simp [storeInv, List.all_append]

set_option maxRecDepth 10000 in
/-- The Reporter never produces the empty string (the page always begins
with the fixed head). -/
theorem render_ne_empty (doc : ReportDoc) : render_html_report doc ≠ "" := by
  intro h
  have hlen := congrArg String.length h
  rw [render_html_report, String.length_append] at hlen
  have hzero : String.length "" = 0 := rfl
  have hpos : 0 < reportHead.length := by decide
  omega

/-- Claim C9: the Reporter is a total pure function — on every input
document, including one with absent status, URLs, metrics or metric
sub-fields, it produces a non-empty HTML string, showing the placeholder
`n/a` for an absent metric (whether the whole mapping, the sub-group or
the leaf is missing) and the placeholder `—` for an absent chat URL. -/
theorem C9_reporter_total (doc : ReportDoc) :
    render_html_report doc ≠ "" ∧
    cell none = "n/a" ∧
    orDash none = "—" ∧
    (doc.metrics = none → row "Toxicity" "n/a" ∈ reportBody doc) ∧
    (∀ lm ls, doc.metrics = some lm → lm.safety = some ls → ls.toxicity = none →
      row "Toxicity" "n/a" ∈ reportBody doc) ∧
    (doc.chat_url = none →
      "<div class='muted'>Chat Logs: —</div>" ∈ reportBody doc) := by
  refine ⟨render_ne_empty doc, rfl, rfl, ?_, ?_, ?_⟩
  · intro hm
    simp [reportBody, hm, cell]
  · intro lm ls hm hs ht
    simp [reportBody, hm, hs, ht, cell]
  · intro hc
    simp [reportBody, chatLine, orDash, hc]

/-- Witness for C9 at the all-absent document. -/
theorem C9_reporter_total_witness :
    render_html_report emptyDoc ≠ "" ∧
    row "Toxicity" "n/a" ∈ reportBody emptyDoc ∧
    "<div class='muted'>Chat Logs: —</div>" ∈ reportBody emptyDoc :=
  ⟨(C9_reporter_total emptyDoc).1,
   (C9_reporter_total emptyDoc).2.2.2.1 rfl,
   (C9_reporter_total emptyDoc).2.2.2.2.2 rfl⟩

/-- Claim C7, counterexample: a record whose cached `htmlReport` is present
but equal to the empty string is not returned verbatim — the endpoint
serves a synthesized page instead of the cached value. -/
theorem C7_counterexample_empty_cache :
    rec0.html_report = some "" ∧
    (get_evaluation_report [rec0] (some 0)).1 ≠ .page "" := by
  refine ⟨rfl, ?_⟩
  have hstep : (get_evaluation_report [rec0] (some 0)).1 =
      .page (render_html_report (reportView rec0)) := rfl
  rw [hstep]
  intro hc
  simp only [ReportOutcome.page.injEq] at hc
  exact render_ne_empty (reportView rec0) hc

/-- Claim C7 as amended: `GET /evaluations/id/report` returns the cached
`htmlReport` verbatim when it is present *and non-empty*; otherwise (cache
absent, or present but empty) it synthesizes a report on the fly from the
record's status, URLs and metrics via the Reporter, and in every case the
store is returned unchanged (nothing is written back). -/
theorem C7_amended_report_read (s : Store) (i : Nat) (doc : EvalRecord)
    (hdoc : s[i]? = some doc) :
    (∀ h, doc.html_report = some h → h ≠ "" →
      get_evaluation_report s (some i) = (.page h, s)) ∧
    ((doc.html_report = none ∨ doc.html_report = some "") →
      get_evaluation_report s (some i) =
        (.page (render_html_report (reportView doc)), s)) := by
  constructor
  · intro h hh hne
    simp [get_evaluation_report, hdoc, hh, hne]
  · rintro (hh | hh) <;> simp [get_evaluation_report, hdoc, hh]

/-- Witness for C7's amended theorem: a non-empty cached page is served
verbatim. -/
theorem C7_amended_report_read_witness :
    get_evaluation_report [rec1] (some 0) = (.page "<html>cached</html>", [rec1]) :=
  (C7_amended_report_read [rec1] 0 rec1 rfl).1 "<html>cached</html>" rfl (by decide)

/-- Claim C10: a record whose `htmlReport` field holds the empty string is
treated as uncached — the endpoint synthesizes a fresh page from the stored
fields, and what it serves is never the cached empty value (the synthesized
page is non-empty). -/
theorem C10_empty_cache_never_served (s : Store) (i : Nat) (doc : EvalRecord)
    (hdoc : s[i]? = some doc) (hempty : doc.html_report = some "") :
    get_evaluation_report s (some i) =
      (.page (render_html_report (reportView doc)), s) ∧
    render_html_report (reportView doc) ≠ "" := by
  refine ⟨?_, render_ne_empty _⟩
  simp [get_evaluation_report, hdoc, hempty]

/-- Witness for C10 at a concrete one-record store. -/
theorem C10_empty_cache_never_served_witness :
    get_evaluation_report [rec0] (some 0) =
      (.page (render_html_report (reportView rec0)), [rec0]) ∧
    render_html_report (reportView rec0) ≠ "" :=
  C10_empty_cache_never_served [rec0] 0 rec0 rfl rfl

/-- Claim C4: the two failure paths of `POST /evaluate` persist
differently.  When a fetch raises (agent card or chat URL), the created
record is updated to status `failed` and nothing else — in particular no
error text is stored.  When any other exception `e` occurs during
scoring/reporting/persisting, the record is updated to status `failed`
with the message stored in `error`, and the caller receives a 500. -/
theorem C4_failure_paths (fetcher : String → FetchResult) (exc : Option String)
    (req : EvalRequest) (s : Store) :
    (∀ code detail, fetcher req.agent_card_url = .httpError code detail →
      (evaluateFlow fetcher exc req s).2 =
        s ++ [{ initialDoc req with status := "failed" }]) ∧
    (∀ cardText cu code detail, fetcher req.agent_card_url = .ok cardText →
      req.chat_url = some cu → fetcher cu = .httpError code detail →
      (evaluateFlow fetcher exc req s).2 =
        s ++ [{ initialDoc req with status := "failed" }]) ∧
    (∀ cardText e, fetcher req.agent_card_url = .ok cardText → exc = some e →
      (req.chat_url = none ∨ ∃ cu t, req.chat_url = some cu ∧ fetcher cu = .ok t) →
      (evaluateFlow fetcher exc req s).2 =
        s ++ [{ initialDoc req with status := "failed", error := some e }] ∧
      (evaluateFlow fetcher exc req s).1 =
        .httpError 500 ("Evaluation failed: " ++ e)) := by
  refine ⟨?_, ?_, ?_⟩
  · intro code detail hf
    simp only [evaluateFlow, hf]
    rw [updateAt_append]
  · intro cardText cu code detail hok hcu hf
    simp only [evaluateFlow, hok, hcu, hf]
    rw [updateAt_append]
  · intro cardText e hok hexc hchat
    rcases hchat with hnone | ⟨cu, t, hcu, hcuok⟩
    · constructor
      · simp only [evaluateFlow, hok, hnone, finishEval, hexc]
        rw [updateAt_append]
      · simp [evaluateFlow, hok, hnone, finishEval, hexc]
    · constructor
      · simp only [evaluateFlow, hok, hcu, hcuok, finishEval, hexc]
        rw [updateAt_append]
      · simp [evaluateFlow, hok, hcu, hcuok, finishEval, hexc]

/-- Witness for C4: a failing fetcher leaves exactly the status-only
update. -/
theorem C4_failure_paths_witness :
    (evaluateFlow fetchErrF none reqA []).2 =
      [] ++ [{ initialDoc reqA with status := "failed" }] :=
  (C4_failure_paths fetchErrF none reqA []).1 502 "d" rfl

/-- Claim C6: the success path persists `status`, `metrics` and
`html_report` in one single update of the created record, and every path of
`POST /evaluate` preserves the store invariant that `metrics` and
`html_report` are set together or not at all, and that `error` is set only
on a failed record. -/
theorem C6_single_update_invariant (fetcher : String → FetchResult)
    (exc : Option String) (req : EvalRequest) (s : Store)
    (hs : storeInv s = true) :
    storeInv (evaluateFlow fetcher exc req s).2 = true ∧
    (∀ cardText, fetcher req.agent_card_url = .ok cardText → req.chat_url = none →
      exc = none →
      (evaluateFlow fetcher exc req s).2 =
        s ++ [{ initialDoc req with
                status := "completed",
                metrics := some (dummy_deepeval cardText none),
                html_report := some (render_html_report
                  (completedView req (dummy_deepeval cardText none))) }]) := by
  constructor
  · cases hR : fetcher req.agent_card_url with
    | httpError code detail =>
      simp only [evaluateFlow, hR]
      rw [updateAt_append, storeInv_append, hs]
      rfl
    | ok cardText =>
      cases hc : req.chat_url with
      | none =>
        cases hexc : exc with
        | some e =>
          simp only [evaluateFlow, hR, hc, finishEval, hexc]
          rw [updateAt_append, storeInv_append, hs]
          rfl
        | none =>
          simp only [evaluateFlow, hR, hc, finishEval, hexc]
          rw [updateAt_append, storeInv_append, hs]
          rfl
      | some cu =>
        cases hR2 : fetcher cu with
        | httpError code detail =>
          simp only [evaluateFlow, hR, hc, hR2]
          rw [updateAt_append, storeInv_append, hs]
          rfl
        | ok chatText =>
          cases hexc : exc with
          | some e =>
            simp only [evaluateFlow, hR, hc, hR2, finishEval, hexc]
            rw [updateAt_append, storeInv_append, hs]
            rfl
          | none =>
            simp only [evaluateFlow, hR, hc, hR2, finishEval, hexc]
            rw [updateAt_append, storeInv_append, hs]
            rfl
  · intro cardText hok hchat hexc
    simp only [evaluateFlow, hok, hchat, finishEval, hexc]
    rw [updateAt_append]

/-- Witness for C6: the empty store satisfies the invariant and still does
after a successful evaluation. -/
theorem C6_single_update_invariant_witness :
    storeInv [] = true ∧ storeInv (evaluateFlow fetchOkF none reqA []).2 = true :=
  ⟨rfl, (C6_single_update_invariant fetchOkF none reqA [] rfl).1⟩

/-- Claim C8: a `POST /evaluate` request whose agent-card URL (or chat URL,
when given) is not a well-formed absolute URL is rejected by validation
before the handler runs: no record is created and the store is returned
unchanged. -/
theorem C8_validation_rejects (fetcher : String → FetchResult) (exc : Option String)
    (req : EvalRequest) (s : Store)
    (hbad : isAbsoluteUrl req.agent_card_url = false ∨
      ∃ cu, req.chat_url = some cu ∧ isAbsoluteUrl cu = false) :
    postEvaluate fetcher exc req s = (.httpError 422 "Invalid URL", s) := by
  have hv : validRequest req = false := by
    rcases hbad with h | ⟨cu, hcu, h⟩
    · simp [validRequest, h]
    · simp [validRequest, hcu, h]
  simp [postEvaluate, hv]

/-- Witness for C8 at a malformed concrete request. -/
theorem C8_validation_rejects_witness :
    postEvaluate fetchOkF none reqBad [] = (.httpError 422 "Invalid URL", []) :=
  C8_validation_rejects fetchOkF none reqBad [] (Or.inl (by decide))

end AgentEval
